import Mathlib

/-!
Verification of the SynCash payment orchestrator core against its
natural-language specification.  Each definition below is a shallow
embedding of a function of the source repository (file and line ranges
named in the doc comments); theorems settle the frozen claims C1..C10.
-/

namespace SynCash

/-! ## Idempotency service
Embedding of `src/apps/orchestrator/src/services/idempotency.py`.
Machine-level details kept: the request hash is passed in already
computed (`generate_request_hash` is an opaque SHA-256 of the canonical
body); Redis and the database are folded into an environment holding the
stored record and fault flags.  `_get_redis_record` catches its own
exceptions and returns `None` (lines 283-287), so a read fault surfaces
as an absent record; `_store_redis_record` re-raises (line 315), so a
write fault propagates to the caller. -/

/-- The `IdempotencyStatus` enum (idempotency.py lines 20-25). -/
inductive IdemStatus where
  | processing
  | completed
  | failed
  | expired
deriving DecidableEq, Repr

/-- The `IdempotencyRecord` dataclass (idempotency.py lines 27-44),
restricted to the fields `check_idempotency` reads or writes.
Timestamps are integral seconds. -/
structure IdemRecord where
  key : String
  status : IdemStatus
  requestHash : String
  responseData : Option String
  createdAt : ℤ
  attemptCount : Nat
deriving DecidableEq, Repr

/-- The `IdempotencyResult` class (idempotency.py lines 46-54). -/
structure IdemResult where
  isDuplicate : Bool
  record : Option IdemRecord
  shouldProcess : Bool
  cachedResponse : Option String
deriving DecidableEq, Repr

/-- Exceptions that can escape the `try` block of `check_idempotency`:
the `ValueError` raised on a hash conflict (line 98) and a storage
exception re-raised by `_store_redis_record` (line 315). -/
inductive IdemError where
  | conflict
  | storeError
deriving DecidableEq, Repr

/-- Environment of the idempotency check: the record the store holds for
the key, fault injection flags for the Redis read and write paths, and
the current time. -/
structure IdemEnv where
  storedRecord : Option IdemRecord
  redisReadFault : Bool
  redisWriteFault : Bool
  now : ℤ
deriving DecidableEq, Repr

/-- `IdempotencyService` configuration (idempotency.py lines 59-62). -/
structure IdemService where
  defaultTtlSeconds : ℤ := 86400
  processingTimeoutSeconds : ℤ := 300
deriving DecidableEq, Repr

/-- `_get_redis_record` (idempotency.py lines 258-287): any internal
exception is caught and `None` returned. -/
def getRedisRecord (env : IdemEnv) : Option IdemRecord :=
  if env.redisReadFault then none else env.storedRecord

/-- `_store_redis_record` (idempotency.py lines 289-315): on failure the
exception is re-raised to the caller. -/
def storeRedisRecord (env : IdemEnv) (_r : IdemRecord) : Except IdemError Unit :=
  if env.redisWriteFault then Except.error IdemError.storeError else Except.ok ()

/-- `_is_processing_timeout` (idempotency.py lines 385-391). -/
def isProcessingTimeout (svc : IdemService) (env : IdemEnv) (r : IdemRecord) : Bool :=
  r.status = IdemStatus.processing &&
    env.now - r.createdAt > svc.processingTimeoutSeconds

/-- The body of the `try` block of `check_idempotency`
(idempotency.py lines 85-176), in source order: fetch the record; on a
hash mismatch raise the conflict `ValueError` (line 98); dispatch on the
record status; otherwise create a fresh `processing` record.  A record
with status `EXPIRED` matches no branch and falls through to creation,
exactly as in the source. -/
def checkIdempotencyTry (svc : IdemService) (env : IdemEnv)
    (idempotencyKey : String) (requestHash : String) (_ttl : ℤ) :
    Except IdemError IdemResult :=
  match getRedisRecord env with
  | some rec =>
    if rec.requestHash ≠ requestHash then
      Except.error IdemError.conflict
    else if rec.status = IdemStatus.completed then
      Except.ok ⟨true, some rec, false, rec.responseData⟩
    else if rec.status = IdemStatus.processing then
      if isProcessingTimeout svc env rec then
        let rec' := { rec with attemptCount := rec.attemptCount + 1 }
        match storeRedisRecord env rec' with
        | Except.error e => Except.error e
        | Except.ok _ => Except.ok ⟨true, some rec', true, none⟩
      else
        Except.ok ⟨true, some rec, false, none⟩
    else if rec.status = IdemStatus.failed then
      let rec' := { rec with attemptCount := rec.attemptCount + 1,
                             status := IdemStatus.processing }
      match storeRedisRecord env rec' with
      | Except.error e => Except.error e
      | Except.ok _ => Except.ok ⟨true, some rec', true, none⟩
    else
      let newRecord : IdemRecord :=
        ⟨idempotencyKey, IdemStatus.processing, requestHash, none, env.now, 1⟩
      match storeRedisRecord env newRecord with
      | Except.error e => Except.error e
      | Except.ok _ => Except.ok ⟨false, some newRecord, true, none⟩
  | none =>
    let newRecord : IdemRecord :=
      ⟨idempotencyKey, IdemStatus.processing, requestHash, none, env.now, 1⟩
    match storeRedisRecord env newRecord with
    | Except.error e => Except.error e
    | Except.ok _ => Except.ok ⟨false, some newRecord, true, none⟩

/-- `check_idempotency` (idempotency.py lines 70-186).  An empty key
returns allow immediately (lines 78-80); the `except Exception` handler
(lines 178-186) turns every escaped exception, the conflict `ValueError`
included, into `IdempotencyResult(is_duplicate=False, should_process=True)`. -/
def checkIdempotency (svc : IdemService) (env : IdemEnv)
    (idempotencyKey : String) (requestHash : String) : IdemResult :=
  if idempotencyKey = "" then ⟨false, none, true, none⟩
  else
    match checkIdempotencyTry svc env idempotencyKey requestHash svc.defaultTtlSeconds with
    | Except.ok r => r
    | Except.error _ => ⟨false, none, true, none⟩

/-! ## Transaction model
Embedding of `src/apps/orchestrator/src/models/transaction.py` and of the
two `_update_transaction_status` functions named by the claims.  Because
the webhook path assigns `payment_response.status.value` (a provider
status string) straight into `transaction.status`, the transaction status
is carried as a `String` here; the two enums below enumerate the members
of the models enum and of the provider-canonical enum respectively. -/

/-- `TransactionStatus` (models/transaction.py lines 16-26). -/
inductive TxStatus where
  | initiated
  | validating
  | pending
  | processing
  | confirmed
  | failed
  | expired
  | refunded
  | cancelled
deriving DecidableEq, Repr

/-- The `.value` string of each `TransactionStatus` member. -/
def TxStatus.toStr : TxStatus → String
  | TxStatus.initiated => ("initiated")
  | TxStatus.validating => ("validating")
  | TxStatus.pending => ("pending")
  | TxStatus.processing => ("processing")
  | TxStatus.confirmed => ("confirmed")
  | TxStatus.failed => ("failed")
  | TxStatus.expired => ("expired")
  | TxStatus.refunded => ("refunded")
  | TxStatus.cancelled => ("cancelled")

/-- Python attribute access `TransactionStatus.<NAME>`: the member for a
given name, `none` when the enum has no such member (in which case the
interpreter raises `AttributeError`). -/
def txStatusMember : String → Option TxStatus
  | "INITIATED" => some TxStatus.initiated
  | "VALIDATING" => some TxStatus.validating
  | "PENDING" => some TxStatus.pending
  | "PROCESSING" => some TxStatus.processing
  | "CONFIRMED" => some TxStatus.confirmed
  | "FAILED" => some TxStatus.failed
  | "EXPIRED" => some TxStatus.expired
  | "REFUNDED" => some TxStatus.refunded
  | "CANCELLED" => some TxStatus.cancelled
  | _ => none

/-- `Transaction.is_final_state` (models/transaction.py lines 96-105),
lifted to the status string. -/
def isFinalStatus (s : String) : Bool :=
  s = ("confirmed") || s = ("failed") || s = ("expired") ||
    s = ("refunded") || s = ("cancelled")

/-- `providers/base.py` `TransactionStatus` (lines 20-28): the canonical
provider-side status enum, distinct from the models enum. -/
inductive ProvStatus where
  | pending
  | processing
  | successful
  | failed
  | cancelled
  | expired
  | refunded
deriving DecidableEq, Repr

/-- The `.value` string of each provider status member. -/
def ProvStatus.toStr : ProvStatus → String
  | ProvStatus.pending => ("pending")
  | ProvStatus.processing => ("processing")
  | ProvStatus.successful => ("successful")
  | ProvStatus.failed => ("failed")
  | ProvStatus.cancelled => ("cancelled")
  | ProvStatus.expired => ("expired")
  | ProvStatus.refunded => ("refunded")

/-- `PaymentResponse` (providers/base.py lines 40-50), restricted to the
fields the webhook update path reads. -/
structure PaymentResponseM where
  providerTransactionId : String
  status : ProvStatus
  amount : ℚ
  providerReference : Option String
  message : Option String
deriving DecidableEq, Repr

/-- The transaction fields touched by the update paths under scrutiny. -/
structure TxRecord where
  status : String
  providerReference : Option String
  statusMessage : Option String
deriving DecidableEq, Repr

/-- The column attribute names of the `Transaction` declarative model
(models/transaction.py lines 47-91).  `provider_transaction_id` is not
among them: that column exists only on `ProviderTransaction` (line
177). -/
def transactionColumns : List String :=
  [("id"), ("external_reference"), ("user_id"), ("amount"), ("currency"),
   ("description"), ("transaction_type"), ("status"), ("primary_provider"),
   ("providers_used"), ("recipient_phone"), ("recipient_name"),
   ("recipient_provider"), ("transaction_metadata"), ("fraud_score"),
   ("risk_level"), ("created_at"), ("updated_at"), ("expires_at"),
   ("confirmed_at"), ("retry_count"), ("max_retries"), ("last_retry_at"),
   ("total_fees"), ("provider_fees"), ("created_by"), ("updated_by")]

/-- Python class attribute access `Transaction.<name>` while building a
query: the column when it exists, `none` when the model has no such
attribute (in which case the interpreter raises `AttributeError`). -/
def transactionModelAttr (name : String) : Option String :=
  if name ∈ transactionColumns then some name else none

/-- The exception escaping the `try` block of
`WebhookProcessor._update_transaction_status`. -/
inductive WebhookError where
  | attributeError
deriving DecidableEq, Repr

/-- The `try` body of `WebhookProcessor._update_transaction_status`
(providers/webhooks.py lines 110-148): building the lookup query
evaluates `Transaction.provider_transaction_id` (line 119), an
attribute the `Transaction` model does not have, so `AttributeError` is
raised before the query runs; the unconditional status write of the
found-transaction branch (lines 126-128) sits beyond that raise and is
dead code. -/
def webhookUpdateTry (tx : TxRecord) (resp : PaymentResponseM) :
    Except WebhookError TxRecord :=
  match transactionModelAttr ("provider_transaction_id") with
  | none => Except.error WebhookError.attributeError
  | some _ =>
    Except.ok { tx with status := resp.status.toStr,
                        providerReference := resp.providerReference,
                        statusMessage := resp.message }

/-- `WebhookProcessor._update_transaction_status`
(providers/webhooks.py lines 108-153): the `except Exception` handler
at line 150 logs the escaped `AttributeError` and returns, leaving the
transaction exactly as it was. -/
def webhookUpdateTransactionStatus (tx : TxRecord) (resp : PaymentResponseM) :
    TxRecord :=
  match webhookUpdateTry tx resp with
  | Except.ok tx' => tx'
  | Except.error _ => tx

/-- `PaymentOrchestrator._update_transaction_status`
(payment_orchestrator.py lines 364-407): the new status is assigned
unconditionally, with no check of the current status. -/
def orchUpdateTransactionStatus (tx : TxRecord) (newStatus : TxStatus) : TxRecord :=
  { tx with status := newStatus.toStr }

/-- `PaymentOrchestrator.cancel_transaction`
(payment_orchestrator.py lines 289-307), for an authorized user and an
existing transaction: a transaction in a final state is refused
(`"Transaction cannot be cancelled"`) without any update; otherwise the
status moves to `cancelled`.  Returned: the transaction afterwards and
whether the cancellation succeeded. -/
def cancelTransaction (tx : TxRecord) : TxRecord × Bool :=
  if isFinalStatus tx.status then (tx, false)
  else (orchUpdateTransactionStatus tx TxStatus.cancelled, true)

/-! ## Orchestrator fraud branch
Embedding of `PaymentOrchestrator.initiate_payment`
(payment_orchestrator.py lines 34-275) for an input that passes
validation, restricted to the fraud-handling step 4 and the simulated
provider step 5.  The critical- and high-risk branches evaluate
`TransactionStatus.FRAUD_DETECTED` (lines 111 and 156); the models enum
has no such member, so the attribute access raises, and the
`except Exception` handler (lines 242-270) returns the system-error
response without touching the transaction, which keeps the status it got
at creation (`initiated`, the column default). -/

/-- Fraud scoring output consumed by `initiate_payment` (risk_level is
an upper-case string such as "CRITICAL"). -/
structure FraudResult where
  riskScore : ℚ
  riskLevel : String
  isFraud : Bool
deriving DecidableEq, Repr

/-- Exceptions reaching `initiate_payment`'s generic handler. -/
inductive OrchError where
  | attributeError
deriving DecidableEq, Repr

/-- Observable outcome of `initiate_payment`: the response flags and the
transaction's final status string. -/
structure InitOutcome where
  success : Bool
  txStatus : String
  systemErrorResponse : Bool
deriving DecidableEq, Repr

/-- The `try` body of `initiate_payment` after validation and creation
(payment_orchestrator.py lines 104-236).  `providerConfirms` stands for
the simulated provider returning status `confirmed`. -/
def initiatePaymentTry (fraud : FraudResult) (providerConfirms : Bool)
    (tx : TxRecord) : Except OrchError InitOutcome :=
  if fraud.isFraud then
    if fraud.riskLevel = ("CRITICAL") then
      match txStatusMember ("FRAUD_DETECTED") with
      | some st => Except.ok ⟨false, (orchUpdateTransactionStatus tx st).status, false⟩
      | none => Except.error OrchError.attributeError
    else
      match txStatusMember ("FRAUD_DETECTED") with
      | some st => Except.ok ⟨false, (orchUpdateTransactionStatus tx st).status, false⟩
      | none => Except.error OrchError.attributeError
  else
    if providerConfirms then
      Except.ok ⟨true, (orchUpdateTransactionStatus tx TxStatus.confirmed).status, false⟩
    else
      Except.ok ⟨false, (orchUpdateTransactionStatus tx TxStatus.failed).status, false⟩

/-- `initiate_payment` with its `except Exception` handler
(payment_orchestrator.py lines 242-270): on an escaped exception the
response reports a system error and the transaction is left untouched. -/
def initiatePayment (fraud : FraudResult) (providerConfirms : Bool) : InitOutcome :=
  let tx : TxRecord := ⟨TxStatus.initiated.toStr, none, none⟩
  match initiatePaymentTry fraud providerConfirms tx with
  | Except.ok o => o
  | Except.error _ => ⟨false, tx.status, true⟩

/-! ## Circuit breaker
Embedding of `src/apps/orchestrator/src/services/circuit_breaker.py`.
Wall-clock instants and call durations are rational seconds. -/

/-- `CircuitState` (circuit_breaker.py lines 17-21). -/
inductive CBState where
  | closed
  | opened
  | halfOpen
deriving DecidableEq, Repr

/-- `CircuitBreakerConfig` (circuit_breaker.py lines 23-31). -/
structure CBConfig where
  failureThreshold : Nat := 5
  successThreshold : Nat := 3
  timeoutSeconds : ℤ := 60
  slowCallThreshold : ℚ := 5
  slowCallRateThreshold : ℚ := 1/2
  minimumCalls : Nat := 10
deriving DecidableEq, Repr

/-- `CircuitBreakerStats` (circuit_breaker.py lines 33-44), restricted to
the fields the failure path reads or writes. -/
structure CBStats where
  totalCalls : Nat := 0
  successfulCalls : Nat := 0
  failedCalls : Nat := 0
  slowCalls : Nat := 0
  consecutiveFailures : Nat := 0
  consecutiveSuccesses : Nat := 0
  callTimes : List ℚ := []
deriving DecidableEq, Repr

/-- A `CircuitBreaker` (circuit_breaker.py lines 50-59). -/
structure Breaker where
  state : CBState
  stats : CBStats
  lastStateChange : ℤ
  config : CBConfig
deriving DecidableEq, Repr

/-- A freshly constructed breaker at time `t`. -/
def Breaker.fresh (cfg : CBConfig) (t : ℤ) : Breaker :=
  ⟨CBState.closed, {}, t, cfg⟩

/-- Python's `l[-n:]` for the non-negative slice used at line 168. -/
def takeLast (n : Nat) (l : List ℚ) : List ℚ :=
  l.drop (l.length - n)

/-- `_should_open_circuit` (circuit_breaker.py lines 157-180): below
`minimum_calls` total calls the answer is always `false`; then the
consecutive-failure threshold; then the slow-call rate over the last
`minimum_calls` durations. -/
def shouldOpenCircuit (b : Breaker) : Bool :=
  if b.stats.totalCalls < b.config.minimumCalls then false
  else if b.config.failureThreshold ≤ b.stats.consecutiveFailures then true
  else
    let recentCalls := takeLast b.config.minimumCalls b.stats.callTimes
    if b.config.minimumCalls ≤ recentCalls.length then
      let slowCalls := (recentCalls.filter (fun t => b.config.slowCallThreshold < t)).length
      decide (b.config.slowCallRateThreshold ≤ (slowCalls : ℚ) / (recentCalls.length : ℚ))
    else false

/-- `_record_failure` (circuit_breaker.py lines 122-155): update the
stats, then transition `closed → open` when `_should_open_circuit`
holds on the updated stats, and `half_open → open` unconditionally. -/
def recordFailure (b : Breaker) (now : ℤ) (callDuration : ℚ) : Breaker :=
  let ct := b.stats.callTimes ++ [callDuration]
  let ct := if 100 < ct.length then ct.drop 1 else ct
  let stats : CBStats :=
    { totalCalls := b.stats.totalCalls + 1
      successfulCalls := b.stats.successfulCalls
      failedCalls := b.stats.failedCalls + 1
      slowCalls := b.stats.slowCalls +
        (if b.config.slowCallThreshold < callDuration then 1 else 0)
      consecutiveFailures := b.stats.consecutiveFailures + 1
      consecutiveSuccesses := 0
      callTimes := ct }
  let b' := { b with stats := stats }
  if b'.state = CBState.closed && shouldOpenCircuit b' then
    { b' with state := CBState.opened, lastStateChange := now }
  else if b'.state = CBState.halfOpen then
    { b' with state := CBState.opened, lastStateChange := now }
  else b'

/-- `_should_attempt_reset` (circuit_breaker.py lines 182-188). -/
def shouldAttemptReset (b : Breaker) (now : ℤ) : Bool :=
  b.state = CBState.opened &&
    b.config.timeoutSeconds ≤ now - b.lastStateChange

/-- Admission decision of `CircuitBreaker.call`. -/
inductive AdmitDecision where
  | admitted (b : Breaker)
  | refused
deriving DecidableEq, Repr

/-- The admission phase of `CircuitBreaker.call`
(circuit_breaker.py lines 61-73): in the `open` state the call is
refused with `CircuitBreakerError` unless `timeout_seconds` have
elapsed since the last state change, in which case the breaker moves to
`half_open` and the call proceeds to the wrapped adapter; in any other
state the call proceeds. -/
def callAdmission (b : Breaker) (now : ℤ) : AdmitDecision :=
  if b.state = CBState.opened then
    if shouldAttemptReset b now then
      AdmitDecision.admitted { b with state := CBState.halfOpen, lastStateChange := now }
    else AdmitDecision.refused
  else AdmitDecision.admitted b

/-- The provider circuit-breaker configuration
(`get_provider_circuit_breaker`, circuit_breaker.py lines 257-267). -/
def providerCBConfig : CBConfig :=
  ⟨3, 2, 30, 10, 3/5, 5⟩

/-- Iterated failed calls, each recorded at the given time with the
given duration. -/
def recordFailures (b : Breaker) (now : ℤ) (d : ℚ) : Nat → Breaker
  | 0 => b
  | n + 1 => recordFailure (recordFailures b now d n) now d

/-! ## Retry handler
Embedding of `RetryHandler._attempt_with_provider`
(src/apps/orchestrator/src/services/retry_handler.py lines 120-230).
The per-attempt outcome of `operation(transaction, provider, ...)` is
supplied as a function of the attempt index; every provider interaction
the loop performs is traced, so the trace witnesses which provider
operations the source ever invokes. -/

/-- Outcome of one `operation` invocation: a result dict with
`success=True`, a result dict with `success=False` carrying an
`error_type`, or an exception. -/
inductive OpOutcome where
  | success
  | failureOf (errorType : String)
  | exceptionOf (msg : String)
deriving DecidableEq, Repr

/-- A provider interaction: an `initiate`-style `operation` call, or a
`status(provider_tx_id)` probe.  The source's retry loop never issues
the latter; the constructor exists so the property can be stated. -/
inductive ProviderCallEvent where
  | initiateCall
  | statusProbe
deriving DecidableEq, Repr

/-- `RetryConfig` error classes (retry_handler.py lines 37-52). -/
def retryableErrors : List String :=
  [("NETWORK_ERROR"), ("TIMEOUT"), ("TEMPORARY_UNAVAILABLE"),
   ("RATE_LIMITED"), ("PROVIDER_BUSY")]

/-- Non-retryable error classes (retry_handler.py lines 46-52). -/
def nonRetryableErrors : List String :=
  [("INSUFFICIENT_FUNDS"), ("INVALID_ACCOUNT"), ("FRAUD_DETECTED"),
   ("ACCOUNT_BLOCKED"), ("INVALID_AMOUNT")]

/-- `_is_retryable_error` (retry_handler.py lines 308-313). -/
def isRetryableError (errorType : String) : Bool :=
  if errorType ∈ nonRetryableErrors then false
  else errorType ∈ retryableErrors || errorType = ("UNKNOWN")

/-- Result of `_attempt_with_provider` together with the trace of
provider interactions the loop performed, in order. -/
structure AttemptOutput where
  success : Bool
  providerExhausted : Bool
  calls : List ProviderCallEvent
deriving DecidableEq, Repr

/-- The `for attempt in range(max_retries)` loop of
`_attempt_with_provider` (retry_handler.py lines 144-230): each
iteration invokes `operation` (traced as `initiateCall`); on success it
returns; on a non-retryable error it returns the failed result; on a
retryable error or an exception it sleeps and moves to the next attempt;
when attempts run out the provider is exhausted.  No status probe
appears anywhere in the loop. -/
def attemptLoop (outcomes : Nat → OpOutcome) :
    Nat → Nat → List ProviderCallEvent → AttemptOutput
  | _, 0, trace => ⟨false, true, trace.reverse⟩
  | k, remaining + 1, trace =>
    let trace' := ProviderCallEvent.initiateCall :: trace
    match outcomes k with
    | OpOutcome.success => ⟨true, false, trace'.reverse⟩
    | OpOutcome.failureOf errorType =>
      if isRetryableError errorType then
        attemptLoop outcomes (k + 1) remaining trace'
      else ⟨false, false, trace'.reverse⟩
    | OpOutcome.exceptionOf _ =>
      attemptLoop outcomes (k + 1) remaining trace'

/-- `_attempt_with_provider` with `max_retries` attempts. -/
def attemptWithProvider (outcomes : Nat → OpOutcome) (maxRetries : Nat) :
    AttemptOutput :=
  attemptLoop outcomes 0 maxRetries []

/-- A provider run whose first call times out with unknown outcome (the
provider in fact committed the charge) and whose second accepts again. -/
def timeoutThenSuccess : Nat → OpOutcome
  | 0 => OpOutcome.failureOf ("TIMEOUT")
  | _ => OpOutcome.success

/-! ## Rate limiter
Embedding of `src/apps/orchestrator/src/services/rate_limiter.py` for a
sliding-window endpoint, specialised to one `(key, endpoint)` pair: the
state is that key's window and block entry. -/

/-- `RateLimitConfig` (rate_limiter.py lines 34-42), restricted to the
fields the sliding-window path reads. -/
structure RLConfig where
  requestsPerWindow : Nat
  windowSeconds : ℤ
  burstAllowance : Nat
  blockDurationSeconds : ℤ
deriving DecidableEq, Repr

/-- `RateLimitResult` (rate_limiter.py lines 44-53), without the
`reset_time` timestamp. -/
structure RLResult where
  allowed : Bool
  remaining : Nat
  retryAfter : Option ℤ
  reason : String
deriving DecidableEq, Repr

/-- `SlidingWindowCounter` (rate_limiter.py lines 85-92): the deque of
admitted-request timestamps. -/
structure SlidingWindow where
  windowSeconds : ℤ
  maxRequests : Nat
  requests : List ℤ
deriving DecidableEq, Repr

/-- `SlidingWindowCounter.is_allowed` (rate_limiter.py lines 94-109):
evict timestamps at or before `now - window_seconds`, admit iff fewer
than `max_requests` remain, recording `now` on admission. -/
def slidingWindowIsAllowed (w : SlidingWindow) (now : ℤ) :
    (Bool × Nat) × SlidingWindow :=
  let reqs := w.requests.dropWhile (fun t => t ≤ now - w.windowSeconds)
  if reqs.length < w.maxRequests then
    ((true, w.maxRequests - (reqs.length + 1)), { w with requests := reqs ++ [now] })
  else
    ((false, 0), { w with requests := reqs })

/-- The service state for one `(key, endpoint)`: its sliding window (if
already created) and its block-list entry. -/
structure RLState where
  window : Option SlidingWindow
  blockedUntil : Option ℤ
deriving DecidableEq, Repr

/-- The initial state: no window yet, not blocked. -/
def RLState.initial : RLState := ⟨none, none⟩

/-- `_get_block_remaining_time` (rate_limiter.py lines 299-304):
`max(0, int(remaining_seconds))`; on the integral timestamps of this
model the `int` truncation is exact. -/
def blockRemainingTime (blockUntil : ℤ) (now : ℤ) : ℤ :=
  max 0 (blockUntil - now)

/-- The unblocked continuation of `RateLimiterService.check_rate_limit`
(rate_limiter.py lines 195-218): the sliding window decides; a
rejection there carries no `retry_after` (`_check_sliding_window`,
lines 259-276, never sets it) and puts the key on the block list for
`block_duration_seconds` (lines 207-216). -/
def checkRateLimitUnblocked (cfg : RLConfig) (st : RLState) (now : ℤ) :
    RLResult × RLState :=
  let w := st.window.getD
    ⟨cfg.windowSeconds, cfg.requestsPerWindow + cfg.burstAllowance, []⟩
  let ((allowed, remaining), w') := slidingWindowIsAllowed w now
  if allowed then
    (⟨true, remaining, none, ("")⟩, { st with window := some w' })
  else
    (⟨false, remaining, none, ("Sliding window limit")⟩,
     { st with window := some w',
               blockedUntil := some (now + cfg.blockDurationSeconds) })

/-- `RateLimiterService.check_rate_limit` (rate_limiter.py lines
170-218) for a sliding-window endpoint: a currently blocked key is
rejected immediately with `retry_after` from the block's remaining
time; `_is_blocked` (lines 278-286) also sweeps an expired block;
otherwise the unblocked continuation runs. -/
def checkRateLimit (cfg : RLConfig) (st : RLState) (now : ℤ) :
    RLResult × RLState :=
  match st.blockedUntil with
  | some t =>
    if now < t then
      (⟨false, 0, some (blockRemainingTime t now),
        ("Rate limit exceeded, currently blocked")⟩, st)
    else
      checkRateLimitUnblocked cfg { st with blockedUntil := none } now
  | none => checkRateLimitUnblocked cfg st now

/-- The `payments_initiate` configuration (rate_limiter.py lines
128-135): 10 requests per 60 s window, burst 3, block 300 s. -/
def paymentsInitiateConfig : RLConfig := ⟨10, 60, 3, 300⟩

/-- Run a sequence of checks at the given instants, collecting results. -/
def runChecks (cfg : RLConfig) (st : RLState) : List ℤ → List RLResult × RLState
  | [] => ([], st)
  | t :: ts =>
    let (r, st') := checkRateLimit cfg st t
    let (rs, st'') := runChecks cfg st' ts
    (r :: rs, st'')

/-! ## Provider selection
Embedding of the provider-selection paths the claims name: the models
`PaymentProvider` enum (models/transaction.py lines 28-32), the
attribute accesses `provider_selector.py` performs against it while
building its module-level dictionaries, the phone-support test of
`ProviderManager._validate_phone_for_provider`
(providers/factory.py lines 110-125, matching the adapters'
`validate_phone_number` methods), and the orchestrator's provider
assignment (payment_orchestrator.py lines 186-188).
`provider_selector.py` imports `PaymentProvider` from
`src.models.transaction`, whose members are `MTN`, `AIRTEL`, `TELECEL`,
yet keys its health and configuration dictionaries (lines 22-24 and
66-83) on `PaymentProvider.MTN_MOMO`, `PaymentProvider.AIRTELTIGO` and
`PaymentProvider.VODAFONE`: the first of those attribute accesses
raises `AttributeError` while the dict literal is being evaluated, so
`ProviderSelector` can never be constructed and
`_get_available_providers` can never run. -/

/-- The models `PaymentProvider` enum (models/transaction.py lines
28-32). -/
inductive ModelProvider where
  | mtn
  | airtel
  | telecel
deriving DecidableEq, Repr

/-- Python attribute access `PaymentProvider.<NAME>` on the models
enum: the member for a given name, `none` when the enum has no such
member (in which case the interpreter raises `AttributeError`). -/
def paymentProviderMember : String → Option ModelProvider
  | "MTN" => some ModelProvider.mtn
  | "AIRTEL" => some ModelProvider.airtel
  | "TELECEL" => some ModelProvider.telecel
  | _ => none

/-- The `PaymentProvider` attribute names `provider_selector.py`
evaluates, in order, while building `ProviderHealthStatus.provider_status`
(lines 22-24) and `ProviderSelector.provider_config` (lines 66-83). -/
def providerSelectorAttrNames : List String :=
  [("MTN_MOMO"), ("AIRTELTIGO"), ("VODAFONE")]

/-- Resolving a sequence of enum attribute accesses: the members when
all exist, an `AttributeError` at the first missing one. -/
def resolveProviderMembers : List String → Except OrchError (List ModelProvider)
  | [] => Except.ok []
  | n :: ns =>
    match paymentProviderMember n with
    | none => Except.error OrchError.attributeError
    | some p =>
      match resolveProviderMembers ns with
      | Except.ok ps => Except.ok (p :: ps)
      | Except.error e => Except.error e

/-- Evaluating the dict keys of `ProviderHealthStatus.__init__` and
`ProviderSelector.__init__` (provider_selector.py lines 20-84): the
construction the module-level `provider_selector = ProviderSelector()`
at line 247 performs. -/
def providerSelectorInit : Except OrchError (List ModelProvider) :=
  resolveProviderMembers providerSelectorAttrNames

/-- The provider tags of `ProviderType` (providers/base.py lines
14-18), used by the factory's phone tables. -/
inductive ProvType where
  | mtnMomo
  | airtelTigo
  | vodafone
deriving DecidableEq, Repr

/-- The phone digit codes accepted per provider
(factory.py lines 118-122, matching each adapter's
`validate_phone_number`). -/
def providerPhoneCodes : ProvType → List String
  | ProvType.mtnMomo => [("24"), ("54"), ("55"), ("59")]
  | ProvType.airtelTigo => [("26"), ("27"), ("56"), ("57")]
  | ProvType.vodafone => [("20"), ("50")]

/-- `str.startswith`, spelled out on the character lists so that it
evaluates on literals (first argument the candidate leading digits). -/
def charsLeadWith : List Char → List Char → Bool
  | [], _ => true
  | _ :: _, [] => false
  | c :: cs, d :: ds => c = d && charsLeadWith cs ds

/-- Dropping the Ghana country code before the leading-digits test
(factory.py lines 113-115). -/
def stripGhanaCode (phone : List Char) : List Char :=
  if charsLeadWith (("233").toList) phone then phone.drop 3 else phone

/-- `_validate_phone_for_provider` (factory.py lines 110-125): the
provider supports the phone iff its national part starts with one of
the provider's digit codes. -/
def validatePhoneForProvider (phone : String) (p : ProvType) : Bool :=
  (providerPhoneCodes p).any
    (fun c => charsLeadWith c.toList (stripGhanaCode phone.toList))

/-- The orchestrator's provider assignment
(payment_orchestrator.py lines 186-188): `PaymentProvider.MTN` (a
member the models enum does have) is assigned as `primary_provider`
unconditionally; the recipient phone is never consulted. -/
def orchestratorPrimaryProvider (_recipientPhone : String) : ModelProvider :=
  ModelProvider.mtn

/-! ## Provider webhook verification
Embedding of `MTNMoMoProvider.process_webhook`
(providers/mtn_momo.py lines 390-414) and
`AirtelTigoProvider.process_webhook`
(providers/airteltigo_money.py lines 415-452).  The AirtelTigo HMAC
(`_generate_signature`) is abstracted as a function argument, applied to
the canonical JSON serialisation of the payload (also passed in) and
the timestamp header. -/

/-- The webhook headers the two `process_webhook` functions read. -/
structure WebhookHeaders where
  xSignature : Option String
  xTimestamp : Option String
deriving DecidableEq, Repr

/-- Python truthiness of a header value: an absent or empty string is
falsy. -/
def truthyHeader : Option String → Option String
  | some s => if s = ("") then none else some s
  | none => none

/-- The fields of an MTN webhook payload that `process_webhook` reads. -/
structure MtnWebhookPayload where
  referenceId : Option String
  status : Option String
  amount : Option ℚ
  financialTransactionId : Option String
  reasonMessage : Option String
deriving DecidableEq, Repr

/-- `MTNMoMoProvider.map_provider_status` (mtn_momo.py lines 417-428). -/
def mtnMapStatus (s : String) : ProvStatus :=
  match s.toUpper with
  | "PENDING" => ProvStatus.pending
  | "SUCCESSFUL" => ProvStatus.successful
  | "FAILED" => ProvStatus.failed
  | "TIMEOUT" => ProvStatus.expired
  | "CANCELLED" => ProvStatus.cancelled
  | _ => ProvStatus.pending

/-- `MTNMoMoProvider.process_webhook` (mtn_momo.py lines 390-414): no
signature check of any kind — the headers are never read; any payload
with a truthy `referenceId` yields a response. -/
def mtnProcessWebhook (p : MtnWebhookPayload) (_h : WebhookHeaders) :
    Option PaymentResponseM :=
  match truthyHeader p.referenceId with
  | none => none
  | some tid =>
    some ⟨tid, mtnMapStatus (p.status.getD ("PENDING")), p.amount.getD 0,
          p.financialTransactionId, p.reasonMessage⟩

/-- The fields of an AirtelTigo webhook payload that `process_webhook`
reads. -/
structure AirtelWebhookPayload where
  transactionId : Option String
  transactionStatus : Option String
  amount : Option ℚ
  providerReference : Option String
  statusMessage : Option String
deriving DecidableEq, Repr

/-- `AirtelTigoProvider.map_provider_status`
(airteltigo_money.py lines 455-470). -/
def airtelMapStatus (s : String) : ProvStatus :=
  match s.toUpper with
  | "PENDING" => ProvStatus.pending
  | "PROCESSING" => ProvStatus.processing
  | "SUCCESS" => ProvStatus.successful
  | "SUCCESSFUL" => ProvStatus.successful
  | "FAILED" => ProvStatus.failed
  | "ERROR" => ProvStatus.failed
  | "TIMEOUT" => ProvStatus.expired
  | "EXPIRED" => ProvStatus.expired
  | "CANCELLED" => ProvStatus.cancelled
  | "REFUNDED" => ProvStatus.refunded
  | _ => ProvStatus.pending

/-- The payload-processing tail of `AirtelTigoProvider.process_webhook`
(airteltigo_money.py lines 432-448), shared by the verified and the
unverified path. -/
def airtelWebhookBody (p : AirtelWebhookPayload) : Option PaymentResponseM :=
  match truthyHeader p.transactionId with
  | none => none
  | some tid =>
    some ⟨tid, airtelMapStatus (p.transactionStatus.getD ("PENDING")),
          p.amount.getD 0, p.providerReference, p.statusMessage⟩

/-- `AirtelTigoProvider.process_webhook` (airteltigo_money.py lines
415-452): the signature is verified only when both `X-Signature` and
`X-Timestamp` headers are present and non-empty (`if signature and
timestamp:`); a present signature that differs from the expected one
returns `None`; otherwise — absent headers included — the payload is
processed. -/
def airtelProcessWebhook (genSig : String → String → String)
    (canonicalPayload : String) (p : AirtelWebhookPayload)
    (h : WebhookHeaders) : Option PaymentResponseM :=
  match truthyHeader h.xSignature, truthyHeader h.xTimestamp with
  | some s, some t =>
    if s ≠ genSig canonicalPayload t then none
    else airtelWebhookBody p
  | _, _ => airtelWebhookBody p

/-- The dispatch in `WebhookProcessor.process_*_webhook`
(providers/webhooks.py lines 34-44): `_update_transaction_status` is
invoked iff `process_webhook` returned a response. -/
def webhookUpdateInvoked (r : Option PaymentResponseM) : Bool :=
  r.isSome

/-! ## Theorems settling the claims -/

/-- C1: the claim fails on the code.  Evaluating `check_idempotency` at
the failing input — a stored record under key `k1` with hash `h1`, a
second request under the same key with hash `h2` — yields
`is_duplicate = false` and `should_process = true`: the conflict
`ValueError` raised at idempotency.py line 98 is swallowed by the same
function's `except Exception` handler (lines 178-186), so the second
request proceeds to processing instead of being rejected with
`IdempotencyConflict`. -/
theorem c1_conflict_check_fails_open :
    checkIdempotencyTry {}
        ⟨some ⟨("k1"), IdemStatus.processing, ("h1"), none, 0, 1⟩, false, false, 100⟩
        ("k1") ("h2") (86400) = Except.error IdemError.conflict ∧
    checkIdempotency {}
        ⟨some ⟨("k1"), IdemStatus.processing, ("h1"), none, 0, 1⟩, false, false, 100⟩
        ("k1") ("h2") = ⟨false, none, true, none⟩ :=
  ⟨rfl, rfl⟩

/-- C10: whenever the body of `check_idempotency`'s `try` block raises —
conflict or storage failure alike — the `except Exception` handler
returns `is_duplicate = false`, `should_process = true`; and when the
Redis read path fails internally (`_get_redis_record` catches and
returns `None`), the check likewise reports a non-duplicate that should
be processed.  The idempotency layer fails open on every internal
error. -/
theorem c10_idempotency_fails_open (svc : IdemService) (env : IdemEnv)
    (key hash : String) (hkey : key ≠ ("")) :
    ((∃ e, checkIdempotencyTry svc env key hash svc.defaultTtlSeconds =
        Except.error e) →
      checkIdempotency svc env key hash = ⟨false, none, true, none⟩) ∧
    (env.redisReadFault = true →
      (checkIdempotency svc env key hash).isDuplicate = false ∧
      (checkIdempotency svc env key hash).shouldProcess = true) := by
  constructor
  · rintro ⟨e, he⟩
    unfold checkIdempotency
    simp [hkey, he]
  · intro hread
    unfold checkIdempotency checkIdempotencyTry getRedisRecord storeRedisRecord
    simp [hkey, hread]
    cases env.redisWriteFault <;> simp

/-- Witness for C10 at a concrete input: key `k1`, an environment whose
store write fails, on which the `try` body is an error. -/
theorem c10_witness :
    checkIdempotency {} ⟨none, false, true, 100⟩ ("k1") ("h1") =
      ⟨false, none, true, none⟩ :=
  (c10_idempotency_fails_open {} ⟨none, false, true, 100⟩ ("k1") ("h1")
    (by decide)).1 ⟨IdemError.storeError, rfl⟩

/-- C2: confirmed.  Processing a later webhook leaves every
transaction — a terminal one in particular — unchanged:
`WebhookProcessor._update_transaction_status` evaluates
`Transaction.provider_transaction_id` (webhooks.py line 119), an
attribute the `Transaction` model does not have, so its `try` body
raises `AttributeError` before the status write at line 126 can run and
the `except` at line 150 returns with no mutation; and the only other
status-changing entry point reachable with an existing transaction,
`cancel_transaction`, refuses a transaction in a final state without
updating it.  A `confirmed` transaction therefore never reverts to a
non-terminal state. -/
theorem c2_terminal_status_never_changed (tx : TxRecord) (resp : PaymentResponseM) :
    webhookUpdateTry tx resp = Except.error WebhookError.attributeError ∧
    webhookUpdateTransactionStatus tx resp = tx ∧
    (isFinalStatus tx.status = true → cancelTransaction tx = (tx, false)) := by
  refine ⟨rfl, rfl, ?_⟩
  intro h
  unfold cancelTransaction
  rw [if_pos h]

/-- Witness for C2 at a concrete input: a terminal `confirmed`
transaction receiving a late `failed` webhook keeps its status, and its
cancellation is refused. -/
theorem c2_witness :
    webhookUpdateTransactionStatus ⟨("confirmed"), none, none⟩
      ⟨("m1"), ProvStatus.failed, 100, none, none⟩ = ⟨("confirmed"), none, none⟩ ∧
    cancelTransaction ⟨("confirmed"), none, none⟩ =
      (⟨("confirmed"), none, none⟩, false) :=
  ⟨(c2_terminal_status_never_changed ⟨("confirmed"), none, none⟩
      ⟨("m1"), ProvStatus.failed, 100, none, none⟩).2.1,
   (c2_terminal_status_never_changed ⟨("confirmed"), none, none⟩
      ⟨("m1"), ProvStatus.failed, 100, none, none⟩).2.2 (by decide)⟩

/-- C3: the claim fails on the code.  Evaluating
`_attempt_with_provider` on a run whose first `operation` call ends in
`TIMEOUT` (an ambiguous outcome: the provider may have committed) shows
the loop sleeping and re-invoking the initiate operation: the trace of
provider interactions is two initiate calls and contains no
`status(provider_tx_id)` probe, so a second initiate is issued even when
the first is committed at the provider. -/
theorem c3_retry_reinitiates_without_status_probe :
    isRetryableError (("TIMEOUT")) = true ∧
    (attemptWithProvider timeoutThenSuccess 3).success = true ∧
    (attemptWithProvider timeoutThenSuccess 3).calls =
      [ProviderCallEvent.initiateCall, ProviderCallEvent.initiateCall] ∧
    ProviderCallEvent.statusProbe ∉ (attemptWithProvider timeoutThenSuccess 3).calls := by
  decide

/-- C4: the claim fails on the code.  The models enum has no member
named `FRAUD_DETECTED`, so the critical-fraud branch of
`initiate_payment` (payment_orchestrator.py line 111) raises
`AttributeError`; the generic handler returns the system-error response
and the transaction keeps its creation status `initiated`, which is not
terminal — it never reaches a terminal `failed` state, and no
`fraud_blocked` reason is recorded anywhere in the branch. -/
theorem c4_critical_fraud_leaves_transaction_initiated :
    txStatusMember (("FRAUD_DETECTED")) = none ∧
    initiatePayment ⟨19/20, ("CRITICAL"), true⟩ true =
      ⟨false, ("initiated"), true⟩ ∧
    isFinalStatus (("initiated")) = false := by
  decide

/-- C5 counterexample: with the provider breaker configuration
(`failure_threshold = 3`, `minimum_calls = 5`), three consecutive
recorded failures on a fresh closed breaker raise
`consecutive_failures` to the failure threshold, yet the breaker stays
`closed`: `_should_open_circuit` answers `false` whenever
`total_calls < minimum_calls`, which the claim omits. -/
theorem c5_counterexample_threshold_without_minimum_calls :
    providerCBConfig.failureThreshold = 3 ∧
    (recordFailures (Breaker.fresh providerCBConfig 0) 10 1 3).stats.consecutiveFailures = 3 ∧
    (recordFailures (Breaker.fresh providerCBConfig 0) 10 1 3).state = CBState.closed := by
  decide

/-- `_should_open_circuit` answers `true` as soon as the total-call
floor is met and the consecutive-failure threshold is reached. -/
lemma shouldOpenCircuit_of (b : Breaker)
    (hmin : b.config.minimumCalls ≤ b.stats.totalCalls)
    (hfail : b.config.failureThreshold ≤ b.stats.consecutiveFailures) :
    shouldOpenCircuit b = true := by
  unfold shouldOpenCircuit
  rw [if_neg (by omega), if_pos hfail]

/-- C5 as amended: for a closed breaker, recording a failed call that
raises `consecutive_failures` to `failure_threshold` transitions the
breaker to `open` provided the breaker has then seen at least
`minimum_calls` calls in total; the next call before `timeout_seconds`
have elapsed is refused without invoking the wrapped adapter. -/
theorem c5_breaker_opens_at_threshold_given_minimum_calls
    (b : Breaker) (now : ℤ) (d : ℚ)
    (hclosed : b.state = CBState.closed)
    (hfail : b.config.failureThreshold ≤ b.stats.consecutiveFailures + 1)
    (hmin : b.config.minimumCalls ≤ b.stats.totalCalls + 1) :
    (recordFailure b now d).state = CBState.opened ∧
    (recordFailure b now d).lastStateChange = now ∧
    ∀ t : ℤ, t - now < b.config.timeoutSeconds →
      callAdmission (recordFailure b now d) t = AdmitDecision.refused := by
  have hrec : (recordFailure b now d).state = CBState.opened ∧
      (recordFailure b now d).lastStateChange = now ∧
      (recordFailure b now d).config = b.config := by
    unfold recordFailure
    dsimp only
    rw [if_pos]
    · exact ⟨rfl, rfl, rfl⟩
    · rw [Bool.and_eq_true]
      exact ⟨by simp [hclosed],
        shouldOpenCircuit_of _ (by simpa using hmin) (by simpa using hfail)⟩
  refine ⟨hrec.1, hrec.2.1, ?_⟩
  intro t ht
  unfold callAdmission shouldAttemptReset
  rw [if_pos (by simp [hrec.1])]
  rw [if_neg (by simp [hrec.1, hrec.2.1, hrec.2.2]; omega)]

/-- Witness for C5's amended theorem: a closed provider breaker with 4
recorded calls and 2 consecutive failures opens on the next failure and
refuses the following call. -/
theorem c5_witness :
    (recordFailure
      ⟨CBState.closed,
       { totalCalls := 4, failedCalls := 2, consecutiveFailures := 2,
         callTimes := [1, 1, 1, 1] }, 0, providerCBConfig⟩ 50 1).state =
      CBState.opened ∧
    callAdmission (recordFailure
      ⟨CBState.closed,
       { totalCalls := 4, failedCalls := 2, consecutiveFailures := 2,
         callTimes := [1, 1, 1, 1] }, 0, providerCBConfig⟩ 50 1) 60 =
      AdmitDecision.refused := by
  have h := c5_breaker_opens_at_threshold_given_minimum_calls
    ⟨CBState.closed,
     { totalCalls := 4, failedCalls := 2, consecutiveFailures := 2,
       callTimes := [1, 1, 1, 1] }, 0, providerCBConfig⟩ 50 1
    (by decide) (by decide) (by decide)
  exact ⟨h.1, h.2.2 60 (by decide)⟩

/-- C6: confirmed.  For a breaker in the `open` state, any call strictly
before `timeout_seconds` have elapsed since the last state change is
refused without reaching the wrapped adapter, and a call at or after
that bound is admitted as the probe, with the breaker moved to
`half_open` and its state-change time updated. -/
theorem c6_open_refuses_until_timeout_then_half_open
    (b : Breaker) (now : ℤ) (hopen : b.state = CBState.opened) :
    (now - b.lastStateChange < b.config.timeoutSeconds →
      callAdmission b now = AdmitDecision.refused) ∧
    (b.config.timeoutSeconds ≤ now - b.lastStateChange →
      callAdmission b now = AdmitDecision.admitted
        { b with state := CBState.halfOpen, lastStateChange := now }) := by
  constructor
  · intro h
    unfold callAdmission shouldAttemptReset
    rw [if_pos (by simp [hopen])]
    rw [if_neg (by simp [hopen]; omega)]
  · intro h
    unfold callAdmission shouldAttemptReset
    rw [if_pos (by simp [hopen])]
    rw [if_pos (by simp [hopen]; omega)]

/-- Witness for C6 at a concrete open provider breaker (opened at time
100, timeout 30): a call at 110 is refused, a call at 130 is admitted as
the half-open probe. -/
theorem c6_witness :
    callAdmission ⟨CBState.opened, {}, 100, providerCBConfig⟩ 110 =
      AdmitDecision.refused ∧
    callAdmission ⟨CBState.opened, {}, 100, providerCBConfig⟩ 130 =
      AdmitDecision.admitted ⟨CBState.halfOpen, {}, 130, providerCBConfig⟩ :=
  ⟨(c6_open_refuses_until_timeout_then_half_open
      ⟨CBState.opened, {}, 100, providerCBConfig⟩ 110 (by decide)).1 (by decide),
   (c6_open_refuses_until_timeout_then_half_open
      ⟨CBState.opened, {}, 100, providerCBConfig⟩ 130 (by decide)).2 (by decide)⟩

/-- C7 counterexample: a webhook carrying no signature at all is not
dropped.  An AirtelTigo payload delivered with neither `X-Signature` nor
`X-Timestamp` header yields a response (the `if signature and
timestamp:` guard skips verification), and an MTN payload yields a
response under any headers (its `process_webhook` never reads them); in
each case the transaction update is invoked. -/
theorem c7_counterexample_unsigned_webhook_accepted :
    (airtelProcessWebhook (fun _ _ => ("good")) ("{}")
        ⟨some ("t1"), some ("SUCCESS"), some 50, none, none⟩
        ⟨none, none⟩).isSome = true ∧
    webhookUpdateInvoked (airtelProcessWebhook (fun _ _ => ("good")) ("{}")
        ⟨some ("t1"), some ("SUCCESS"), some 50, none, none⟩
        ⟨none, none⟩) = true ∧
    (mtnProcessWebhook ⟨some ("m1"), some ("SUCCESSFUL"), some 100, none, none⟩
        ⟨none, none⟩).isSome = true := by
  decide

/-- C7 as amended: AirtelTigo verifies the signature only when both
`X-Signature` and `X-Timestamp` headers are present and non-empty; a
present signature differing from the expected one makes
`process_webhook` return `None` and the transaction update is not
invoked; MTN performs no verification and returns a response for every
payload with a truthy `referenceId`. -/
theorem c7_amended_signature_handling
    (genSig : String → String → String) (cp : String)
    (p : AirtelWebhookPayload) (h : WebhookHeaders) (s t : String)
    (hs : truthyHeader h.xSignature = some s)
    (ht : truthyHeader h.xTimestamp = some t)
    (hne : s ≠ genSig cp t) :
    airtelProcessWebhook genSig cp p h = none ∧
    webhookUpdateInvoked (airtelProcessWebhook genSig cp p h) = false ∧
    ∀ (q : MtnWebhookPayload) (hd : WebhookHeaders) (tid : String),
      truthyHeader q.referenceId = some tid →
      (mtnProcessWebhook q hd).isSome = true := by
  have hnone : airtelProcessWebhook genSig cp p h = none := by
    unfold airtelProcessWebhook
    rw [hs, ht]
    simp [hne]
  refine ⟨hnone, by simp [webhookUpdateInvoked, hnone], ?_⟩
  intro q hd tid htid
  unfold mtnProcessWebhook
  rw [htid]
  simp

/-- Witness for C7's amended theorem: a mismatching present signature is
dropped without an update, while an MTN payload passes with no headers. -/
theorem c7_witness :
    airtelProcessWebhook (fun _ _ => ("good")) ("x")
      ⟨some ("t1"), some ("SUCCESS"), some 50, none, none⟩
      ⟨some ("bad"), some ("1")⟩ = none ∧
    webhookUpdateInvoked (airtelProcessWebhook (fun _ _ => ("good")) ("x")
      ⟨some ("t1"), some ("SUCCESS"), some 50, none, none⟩
      ⟨some ("bad"), some ("1")⟩) = false ∧
    (mtnProcessWebhook ⟨some ("m2"), some ("FAILED"), some 5, none, none⟩
      ⟨none, none⟩).isSome = true := by
  have h := c7_amended_signature_handling (fun _ _ => ("good")) ("x")
    ⟨some ("t1"), some ("SUCCESS"), some 50, none, none⟩
    ⟨some ("bad"), some ("1")⟩ ("bad") ("1")
    (by decide) (by decide) (by decide)
  exact ⟨h.1, h.2.1, h.2.2 ⟨some ("m2"), some ("FAILED"), some 5, none, none⟩
    ⟨none, none⟩ ("m2") (by decide)⟩

/-- C8: the claim is right and the code cannot exhibit the behaviour at
all.  Evaluated at the failing input: `provider_selector.py` keys its
health and configuration dictionaries on `PaymentProvider.MTN_MOMO`, a
member the imported models enum does not have, so evaluating those dict
literals raises `AttributeError` — `ProviderSelector` is never
constructed and `_get_available_providers` never runs; meanwhile the
orchestrator path that does run assigns MTN as primary provider for the
destination `233270000001` even though the MTN phone test rejects that
number and the AirtelTigo one accepts it.  Selection never starts from
the supports-phone set. -/
theorem c8_provider_selection_cannot_run :
    paymentProviderMember (("MTN_MOMO")) = none ∧
    providerSelectorInit = Except.error OrchError.attributeError ∧
    validatePhoneForProvider ("233270000001") ProvType.mtnMomo = false ∧
    validatePhoneForProvider ("233270000001") ProvType.airtelTigo = true ∧
    orchestratorPrimaryProvider ("233270000001") = ModelProvider.mtn :=
  ⟨rfl, rfl, by decide, by decide, rfl⟩

/-- C9 counterexample: with the `payments_initiate` configuration
(10 per 60 s window, burst 3), fourteen checks at the same instant admit
exactly thirteen requests; the fourteenth is rejected, but that
rejection carries no `retry_after` (`_check_sliding_window` never sets
it) — `retry_after` appears only on later checks made while the key is
blocked. -/
theorem c9_counterexample_rejection_without_retry_after :
    ((runChecks paymentsInitiateConfig RLState.initial
        (List.replicate 14 100)).1.map (fun r => r.allowed)).count true = 13 ∧
    (runChecks paymentsInitiateConfig RLState.initial
        (List.replicate 14 100)).1.getLast? =
      some ⟨false, 0, none, ("Sliding window limit")⟩ ∧
    (runChecks paymentsInitiateConfig RLState.initial
        (List.replicate 14 100)).2.blockedUntil = some 400 := by
  decide

/-- C9 as amended: exactly `requests_per_window + burst` requests inside
one trailing window are admitted; the next request is rejected with no
`retry_after`, and that rejection puts the key on the block list for
`block_duration_seconds`; every check during the block interval is
rejected immediately with `retry_after` equal to the remaining block
time.  Stated as the three-way characterisation of `check_rate_limit`
on the effective sliding window. -/
theorem c9_amended_check_rate_limit_behaviour
    (cfg : RLConfig) (st : RLState) (now : ℤ) :
    (∀ t, st.blockedUntil = some t → now < t →
      checkRateLimit cfg st now =
        (⟨false, 0, some (blockRemainingTime t now),
          ("Rate limit exceeded, currently blocked")⟩, st)) ∧
    (st.blockedUntil = none →
      (let w := st.window.getD
        ⟨cfg.windowSeconds, cfg.requestsPerWindow + cfg.burstAllowance, []⟩
       let reqs := w.requests.dropWhile (fun u => u ≤ now - w.windowSeconds)
       (reqs.length < w.maxRequests →
         checkRateLimit cfg st now =
           (⟨true, w.maxRequests - (reqs.length + 1), none, ("")⟩,
            ⟨some { w with requests := reqs ++ [now] }, none⟩)) ∧
       (w.maxRequests ≤ reqs.length →
         checkRateLimit cfg st now =
           (⟨false, 0, none, ("Sliding window limit")⟩,
            ⟨some { w with requests := reqs },
             some (now + cfg.blockDurationSeconds)⟩)))) := by
  constructor
  · intro t hb hlt
    unfold checkRateLimit
    rw [hb]
    simp [hlt]
  · intro hb
    constructor
    · intro hlt
      unfold checkRateLimit checkRateLimitUnblocked slidingWindowIsAllowed
      rw [hb]
      dsimp only
      rw [if_pos hlt]
      rfl
    · intro hge
      unfold checkRateLimit checkRateLimitUnblocked slidingWindowIsAllowed
      rw [hb]
      dsimp only
      rw [if_neg (Nat.not_lt.mpr hge)]
      rfl

/-- Witness for C9's amended theorem: a key blocked until 400, checked
at 110, is rejected with `retry_after` the remaining 290 seconds; a
fresh key is admitted with `retry_after` absent. -/
theorem c9_witness :
    checkRateLimit paymentsInitiateConfig ⟨none, some 400⟩ 110 =
      (⟨false, 0, some (blockRemainingTime 400 110),
        ("Rate limit exceeded, currently blocked")⟩, ⟨none, some 400⟩) ∧
    checkRateLimit paymentsInitiateConfig RLState.initial 100 =
      (⟨true, 12, none, ("")⟩, ⟨some ⟨60, 13, [100]⟩, none⟩) := by
  refine ⟨(c9_amended_check_rate_limit_behaviour paymentsInitiateConfig
    ⟨none, some 400⟩ 110).1 400 rfl (by decide), ?_⟩
  have h := ((c9_amended_check_rate_limit_behaviour paymentsInitiateConfig
    RLState.initial 100).2 rfl).1 (by decide)
  simpa using h

end SynCash
